import Mathlib

/-!
Shallow embedding of the game_tracker cloud functions
(`functions/src/index.ts`, in its two checked-in versions) and proofs
about the four request resolvers: `fetchSuggestions`, `fetchSteamGames`,
`fetchPSGames` and `fetchXboxGames`.

Upstream HTTP calls are modelled by explicit environments: each outbound
endpoint becomes a field holding the outcome the network would deliver
for this request (a transport error, an HTTP error status, or a parsed
body).  Each handler is a pure function from its query parameter and
environment to the HTTP response it sends together with the number of
outbound calls it performed.  JSON response bodies are modelled by an
explicit `Json` value type so that bodies produced by different handlers
(and different versions of the same handler) can be compared.
-/

namespace GameTracker

/-- A JSON value, as produced by `res.json(...)`/`res.send(...)`.
Object fields are kept in insertion order, as `JSON.stringify` does;
a field whose JavaScript value is `undefined` is omitted by the
serializer, which the embedding mirrors by not emitting the pair. -/
inductive Json where
  | null : Json
  | str : String → Json
  | num : Int → Json
  | arr : List Json → Json
  | obj : List (String × Json) → Json

/-- The keys of a JSON object, in order (and `[]` for non-objects);
used to tell two object bodies of different shape apart. -/
def Json.topKeys : Json → List String
  | .obj kvs => kvs.map Prod.fst
  | _ => []

/-- The response a handler sends: `res.status(s)` plus the body passed to
`.send`/`.json` (for `res.json(...)` with no explicit status, 200). -/
structure HttpResponse where
  status : Nat
  body : Json

/-- Outcome of one `fetch` call: the promise rejects (or the body fails
to parse) — `netError`; the response arrives with `ok = false` and the
given status — `httpError`; or it arrives `ok` with a parsed body. -/
inductive FetchOutcome (α : Type) where
  | netError : FetchOutcome α
  | httpError : Nat → FetchOutcome α
  | ok : α → FetchOutcome α

/-- JavaScript truthiness test for a possibly-absent query parameter:
`!x` holds when the parameter is absent (`undefined`) or the empty
string. -/
def strFalsy : Option String → Bool
  | none => true
  | some s => s == ""

/-! ### Search resolver (`fetchSuggestions`) -/

/-- One game record of the RAWG search envelope (type `RawgGame`). -/
structure RawgGame where
  id : Int
  name : String
  background_image : Option String
  deriving DecidableEq, Repr

/-- The RAWG search envelope (type `RawgApiResponse`). -/
structure RawgApiResponse where
  count : Nat
  results : List RawgGame
  deriving Repr

/-- Serialization of a `RawgGame` record, field order as received. -/
def rawgGameToJson (g : RawgGame) : Json :=
  .obj ([("id", .num g.id), ("name", .str g.name)] ++
    (match g.background_image with
     | none => []
     | some u => [("background_image", .str u)]))

/-- `fetchSuggestions`: validates the `query` parameter, performs one
outbound search call, and on success responds 200 with the envelope's
`results` list.  Returns the response together with the number of
outbound calls made. -/
def fetchSuggestions (query : Option String)
    (upstream : FetchOutcome RawgApiResponse) : HttpResponse × Nat :=
  if strFalsy query then
    (⟨400, .str "Missing search query"⟩, 0)
  else
    match upstream with
    | .netError => (⟨500, .str "Failed to fetch game suggestions"⟩, 1)
    | .httpError s => (⟨s, .str "Failed to fetch game suggestions"⟩, 1)
    | .ok data => (⟨200, .arr (data.results.map rawgGameToJson)⟩, 1)

/-! ### Steam resolver (`fetchSteamGames`, both versions) -/

/-- A Steam game record (type `Game`): `{appid, name}`. -/
structure Game where
  appid : Int
  name : String
  deriving DecidableEq, Repr

/-- Body of the GetOwnedGames response (inner object of type
`SteamAPIResponse`). -/
structure SteamAPIResponseInner where
  total_count : Nat
  games : List Game
  deriving Repr

/-- The GetOwnedGames envelope (type `SteamAPIResponse`). -/
structure SteamAPIResponse where
  response : SteamAPIResponseInner
  deriving Repr

/-- Inner object of the ResolveVanityURL response (type `SteamVanity`). -/
structure SteamVanityInner where
  steamid : String
  success : Int
  deriving Repr

/-- The ResolveVanityURL envelope (type `SteamVanity`). -/
structure SteamVanity where
  response : SteamVanityInner
  deriving Repr

/-- Serialization of a `Game` record. -/
def gameToJson (g : Game) : Json :=
  .obj [("appid", .num g.appid), ("name", .str g.name)]

/-- Serialization of the GetOwnedGames inner response object, field
order as declared upstream (`total_count` then `games`). -/
def steamInnerToJson (r : SteamAPIResponseInner) : Json :=
  .obj [("total_count", .num r.total_count),
        ("games", .arr (r.games.map gameToJson))]

/-- Upstream environment for the Steam resolver: the outcome of the
vanity-URL lookup, and the outcome of the owned-games call as a function
of the steamid it is invoked with. -/
structure SteamEnv where
  vanityFetch : FetchOutcome SteamVanity
  gamesFetch : String → FetchOutcome SteamAPIResponse

/-- `fetchSteamGames` as in `src/unnamed/part_000` (the full, current
version): vanity lookup, `success` check, owned-games call, then each
record mapped to `{appid, name}` and the body `{games: [...]}` sent
with status 200.  The `catch` of the whole `try` block sends
500 "Failed to fetch Steam games". -/
def fetchSteamGames (vanityurl : Option String) (env : SteamEnv) :
    HttpResponse × Nat :=
  if strFalsy vanityurl then
    (⟨400, .str "Missing Steam vanity URL"⟩, 0)
  else
    match env.vanityFetch with
    | .netError => (⟨500, .str "Failed to fetch Steam games"⟩, 1)
    | .httpError s => (⟨s, .str "Failed to fetch Steam user"⟩, 1)
    | .ok data =>
      if data.response.success ≠ 1 then
        (⟨404, .str "Steam user not found"⟩, 1)
      else
        match env.gamesFetch data.response.steamid with
        | .netError => (⟨500, .str "Failed to fetch Steam games"⟩, 2)
        | .httpError s => (⟨s, .str "Failed to fetch Steam games"⟩, 2)
        | .ok gamesData =>
          let simplifiedGames : List Game :=
            gamesData.response.games.map fun game =>
              { appid := game.appid, name := game.name }
          (⟨200, .obj [("games", .arr (simplifiedGames.map gameToJson))]⟩, 2)

/-- `fetchSteamGames` as in `src/functions/src/index.ts` (the older
version): identical control flow, but the success response passes the
upstream `gamesData.response` object through unmapped. -/
def fetchSteamGamesIndexTs (vanityurl : Option String) (env : SteamEnv) :
    HttpResponse × Nat :=
  if strFalsy vanityurl then
    (⟨400, .str "Missing Steam vanity URL"⟩, 0)
  else
    match env.vanityFetch with
    | .netError => (⟨500, .str "Failed to fetch Steam games"⟩, 1)
    | .httpError s => (⟨s, .str "Failed to fetch Steam user"⟩, 1)
    | .ok data =>
      if data.response.success ≠ 1 then
        (⟨404, .str "Steam user not found"⟩, 1)
      else
        match env.gamesFetch data.response.steamid with
        | .netError => (⟨500, .str "Failed to fetch Steam games"⟩, 2)
        | .httpError s => (⟨s, .str "Failed to fetch Steam games"⟩, 2)
        | .ok gamesData =>
          (⟨200, steamInnerToJson gamesData.response⟩, 2)

/-! ### PlayStation resolver (`fetchPSGames`) -/

/-- One played-title record (type `PsnPlayedGames`). -/
structure PsnPlayedGames where
  titleId : String
  name : String
  category : String
  imageUrl : Option String
  deriving DecidableEq, Repr

/-- One page of the played-titles endpoint (type `PsnPlayedResponse`):
its titles plus the next page cursor (`0` or absent means no further
page). -/
structure PsnPlayedResponse where
  titles : List PsnPlayedGames
  nextOffset : Option Nat
  deriving DecidableEq, Repr

/-- A normalized PlayStation game (type `PsGame`). -/
structure PsGame where
  appid : String
  name : String
  logo : Option String
  deriving DecidableEq, Repr

/-- `socialMetadata` of one universal-search result. -/
structure SocialMetadata where
  accountId : String
  deriving DecidableEq, Repr

/-- One result of a universal-search domain response. -/
structure PsnSearchResult where
  socialMetadata : SocialMetadata
  deriving DecidableEq, Repr

/-- One domain response of the universal search. -/
structure PsnDomainResponse where
  results : List PsnSearchResult
  deriving DecidableEq, Repr

/-- The universal-search envelope (type `PsnSearchResponse`). -/
structure PsnSearchResponse where
  domainResponses : List PsnDomainResponse
  deriving DecidableEq, Repr

/-- The category filter of the draining loop: a title is kept exactly
when `game.category === "ps4_game" || game.category === "ps5_native_game"`. -/
def keepPsCategory (category : String) : Bool :=
  category == "ps4_game" || category == "ps5_native_game"

/-- The object pushed for a kept title:
`{appid: game.titleId, name: game.name, logo: game.imageUrl}`. -/
def psNormalize (game : PsnPlayedGames) : PsGame :=
  { appid := game.titleId, name := game.name, logo := game.imageUrl }

/-- The titles one loop iteration appends for one page: the page's
titles filtered by `keepPsCategory` (in order) and normalized. -/
def psPageKept (page : PsnPlayedResponse) : List PsGame :=
  (page.titles.filter fun game => keepPsCategory game.category).map psNormalize

/-- The draining `while (hasNextPage)` loop, on the sequence of page
responses the upstream delivers to the successive
`getUserPlayedGames` calls.  Each iteration appends the page's kept
titles and stops when `nextOffset` is absent or `0`
(`!playedGames.nextOffset || playedGames.nextOffset === 0`), otherwise
it continues with the next response.  Returns the accumulated list and
the number of pages fetched, or `none` when the loop would request a
page beyond the supplied finite sequence (the run leaves the model). -/
def psDrain : List PsnPlayedResponse → Option (List PsGame × Nat)
  | [] => none
  | page :: rest =>
    match page.nextOffset with
    | none => some (psPageKept page, 1)
    | some 0 => some (psPageKept page, 1)
    | some (Nat.succ _) =>
      (psDrain rest).map fun r => (psPageKept page ++ r.1, r.2 + 1)

/-- The account-ID extraction
`accountSearch.domainResponses[0].results[0].socialMetadata.accountId`:
`some` when both indexings hit, `none` when either array is empty (in
the source a `TypeError` is thrown and caught by the handler's
`catch`). -/
def firstAccountId (accountSearch : PsnSearchResponse) : Option String :=
  accountSearch.domainResponses.head?.bind fun d =>
    d.results.head?.map fun r => r.socialMetadata.accountId

/-- Serialization of a normalized PlayStation game; a `logo` that is
`undefined` is dropped by the serializer. -/
def psGameToJson (g : PsGame) : Json :=
  .obj ([("appid", .str g.appid), ("name", .str g.name)] ++
    (match g.logo with
     | none => []
     | some u => [("logo", .str u)]))

/-- The success body `{total: psGames.length, games: psGames}`. -/
def psSuccessBody (psGames : List PsGame) : Json :=
  .obj [("total", .num psGames.length),
        ("games", .arr (psGames.map psGameToJson))]

/-- The generic failure response of the handler's `catch` block. -/
def psFail : HttpResponse := ⟨500, .str "Failed to fetch PS games"⟩

/-- Upstream environment for the PlayStation resolver: the two token
exchanges (psn-api calls that either return a value or throw, modelled
by `Option`), the universal search by username, and the page sequence
the played-games endpoint delivers for a given account ID. -/
structure PsnEnv where
  npssoExchange : Option String
  codeExchange : String → Option String
  search : String → Option PsnSearchResponse
  pages : String → List PsnPlayedResponse

/-- `fetchPSGames`: validates `username`, performs the two token
exchanges, the account search, takes the first result's account ID,
drains the paged title list and responds
`{total, games}` with status 200; any throw inside the `try` is caught
and answered with the generic 500.  Returns the response and the
number of outbound calls, or `none` when the draining loop runs past
the supplied page sequence. -/
def fetchPSGames (username : Option String) (env : PsnEnv) :
    Option (HttpResponse × Nat) :=
  if strFalsy username then
    some (⟨400, .str "Missing PSN username"⟩, 0)
  else
    match env.npssoExchange with
    | none => some (psFail, 1)
    | some accessCode =>
      match env.codeExchange accessCode with
      | none => some (psFail, 2)
      | some _authorization =>
        match env.search (username.getD "") with
        | none => some (psFail, 3)
        | some accountSearch =>
          match firstAccountId accountSearch with
          | none => some (psFail, 3)
          | some accountId =>
            match psDrain (env.pages accountId) with
            | none => none
            | some (psGames, pagesFetched) =>
              some (⟨200, psSuccessBody psGames⟩, 3 + pagesFetched)

/-! ### Xbox resolver (`fetchXboxGames`) -/

/-- One title-history record (type `XboxGame`). -/
structure XboxGame where
  titleId : String
  name : String
  displayImage : Option String
  deriving DecidableEq, Repr

/-- The title-history envelope (type `XboxApiResponse`); `titles` is
`Option` so that `data.titles || []` has something to default. -/
structure XboxApiResponse where
  xuid : String
  titles : Option (List XboxGame)
  deriving DecidableEq, Repr

/-- One person of the gamertag search (inner record of
`XboxUserSearchResponse`). -/
structure XboxPerson where
  xuid : String
  gamertag : String
  deriving DecidableEq, Repr

/-- The gamertag-search envelope (type `XboxUserSearchResponse`). -/
structure XboxUserSearchResponse where
  people : List XboxPerson
  deriving DecidableEq, Repr

/-- The object built for each title:
`{appid: game.titleId, name: game.name, logo: game.displayImage}`. -/
structure XboxGameInfo where
  appid : String
  name : String
  logo : Option String
  deriving DecidableEq, Repr

/-- Normalization of one Xbox title-history record. -/
def xboxNormalize (game : XboxGame) : XboxGameInfo :=
  { appid := game.titleId, name := game.name, logo := game.displayImage }

/-- Serialization of a normalized Xbox game; an `undefined` `logo` is
dropped by the serializer. -/
def xboxGameInfoToJson (g : XboxGameInfo) : Json :=
  .obj ([("appid", .str g.appid), ("name", .str g.name)] ++
    (match g.logo with
     | none => []
     | some u => [("logo", .str u)]))

/-- The generic failure response of the handler's `catch` block. -/
def xboxFail : HttpResponse := ⟨500, .str "Failed to fetch Xbox games"⟩

/-- The success body `{games: gamesInfo, total: titles.length}` sent by
`res.json` for the title list `titles = data.titles || []`. -/
def xboxSuccessBody (titles : List XboxGame) : Json :=
  .obj [("games", .arr ((titles.map xboxNormalize).map xboxGameInfoToJson)),
        ("total", .num titles.length)]

/-- Upstream environment for the Xbox resolver: the gamertag search
(whose URL interpolates the possibly-absent username) and the
title-history call as a function of the resolved numeric ID. -/
structure XboxEnv where
  search : Option String → FetchOutcome XboxUserSearchResponse
  titleHistory : String → FetchOutcome XboxApiResponse

/-- `fetchXboxGames`: performs the gamertag search with no prior
validation of `username`, reads `people[0].xuid` (throwing — hence the
caught generic 500 — when the list is empty), 404s on an
empty trimmed ID, fetches the title history, and responds
`{games, total}` (status 200, via `res.json`).  Returns the response
and the number of outbound calls. -/
def fetchXboxGames (username : Option String) (env : XboxEnv) :
    HttpResponse × Nat :=
  match env.search username with
  | .netError => (xboxFail, 1)
  | .httpError s => (⟨s, .str "Failed to fetch Xbox XUID"⟩, 1)
  | .ok xuidData =>
    match xuidData.people.head? with
    | none => (xboxFail, 1)
    | some person =>
      if person.xuid.trim == "" then
        (⟨404, .str "Xbox user not found"⟩, 1)
      else
        match env.titleHistory person.xuid.trim with
        | .netError => (xboxFail, 2)
        | .httpError s => (⟨s, .str "Failed to fetch Xbox games, resp not ok"⟩, 2)
        | .ok data => (⟨200, xboxSuccessBody (data.titles.getD [])⟩, 2)

/-! ### Helper lemmas about the draining loop -/

/-- Characterization of a completed drain: the accumulated list is the
in-order concatenation of the kept titles of exactly the pages
consumed, and no more pages than supplied are consumed. -/
theorem psDrain_spec (pages : List PsnPlayedResponse) :
    ∀ gs k, psDrain pages = some (gs, k) →
      gs = ((pages.take k).map psPageKept).flatten ∧ k ≤ pages.length := by
  induction pages with
  | nil => intro gs k h; simp [psDrain] at h
  | cons page rest ih =>
    intro gs k h
    rw [psDrain] at h
    cases hoff : page.nextOffset with
    | none =>
      rw [hoff] at h
      obtain ⟨h1, h2⟩ := Prod.mk.injEq .. ▸ Option.some.inj h
      subst h1; subst h2
      simp [List.take_succ_cons, psDrain]
    | some n =>
      cases n with
      | zero =>
        rw [hoff] at h
        obtain ⟨h1, h2⟩ := Prod.mk.injEq .. ▸ Option.some.inj h
        subst h1; subst h2
        simp [List.take_succ_cons]
      | succ m =>
        rw [hoff] at h
        cases hrec : psDrain rest with
        | none => rw [hrec] at h; simp at h
        | some r =>
          obtain ⟨gs', k'⟩ := r
          rw [hrec] at h
          simp only [Option.map_some] at h
          obtain ⟨h1, h2⟩ := Prod.mk.injEq .. ▸ Option.some.inj h
          obtain ⟨hg, hk⟩ := ih gs' k' hrec
          subst h1; subst h2
          constructor
          · simp [List.take_succ_cons, hg]
          · simpa using Nat.succ_le_succ hk

/-- C2: the `fetchPSGames` pagination loop terminates on every finite
page sequence whose last page carries a `nextOffset` that is `0` or
absent: `psDrain` completes (returns `some`) consuming at most the
supplied pages.  (Each iteration of the source loop either sets the
cursor to the page's returned `nextOffset` and continues, or stops;
the model presents the successive page responses in call order.) -/
theorem psDrain_terminates_on_stop_page
    (pages : List PsnPlayedResponse) (last : PsnPlayedResponse)
    (hlast : pages.getLast? = some last)
    (hstop : last.nextOffset = none ∨ last.nextOffset = some 0) :
    ∃ gs k, psDrain pages = some (gs, k) ∧ k ≤ pages.length := by
  induction pages with
  | nil => simp at hlast
  | cons page rest ih =>
    cases rest with
    | nil =>
      rw [List.getLast?_singleton] at hlast
      obtain rfl := Option.some.inj hlast
      rcases hstop with h | h <;>
        exact ⟨psPageKept page, 1, by simp [psDrain, h], by simp⟩
    | cons q t =>
      rw [List.getLast?_cons_cons] at hlast
      cases hoff : page.nextOffset with
      | none =>
        exact ⟨psPageKept page, 1, by rw [psDrain, hoff], by simp⟩
      | some n =>
        cases n with
        | zero =>
          exact ⟨psPageKept page, 1, by rw [psDrain, hoff], by simp⟩
        | succ m =>
          obtain ⟨gs, k, hdrain, hk⟩ := ih hlast
          refine ⟨psPageKept page ++ gs, k + 1, ?_, ?_⟩
          · rw [psDrain, hoff, hdrain]; rfl
          · simpa using Nat.succ_le_succ hk

/-- Witness for C2: a concrete two-page sequence whose last page
carries `nextOffset = 0`. -/
theorem psDrain_terminates_on_stop_page_witness :
    ∃ gs k,
      psDrain [⟨[], some 100⟩, ⟨[], some 0⟩] = some (gs, k) ∧
      k ≤ ([⟨[], some 100⟩, ⟨[], some 0⟩] : List PsnPlayedResponse).length :=
  psDrain_terminates_on_stop_page [⟨[], some 100⟩, ⟨[], some 0⟩]
    ⟨[], some 0⟩ rfl (Or.inr rfl)

/-- C1: on a successful run of `fetchPSGames`, the accumulated list
keeps a title exactly when its category is `"ps4_game"` or
`"ps5_native_game"`, flattens the consumed pages in page order with
within-page order preserved, and the handler responds 200 with body
`{total: psGames.length, games: psGames}` (see `psSuccessBody`). -/
theorem fetchPSGames_keeps_filters_and_counts
    (username : Option String) (env : PsnEnv)
    (accessCode authorization accountId : String)
    (accountSearch : PsnSearchResponse) (psGames : List PsGame) (k : Nat)
    (hu : strFalsy username = false)
    (h1 : env.npssoExchange = some accessCode)
    (h2 : env.codeExchange accessCode = some authorization)
    (h3 : env.search (username.getD "") = some accountSearch)
    (h4 : firstAccountId accountSearch = some accountId)
    (h5 : psDrain (env.pages accountId) = some (psGames, k)) :
    psGames = (((env.pages accountId).take k).map fun page =>
        (page.titles.filter fun game =>
          game.category == "ps4_game" ||
          game.category == "ps5_native_game").map psNormalize).flatten ∧
    fetchPSGames username env =
      some (⟨200, psSuccessBody psGames⟩, 3 + k) := by
  constructor
  · simpa [psPageKept, keepPsCategory] using (psDrain_spec _ _ _ h5).1
  · simp only [fetchPSGames, hu, h1, h2, h3, h4, h5]
    rfl

/-- Witness for C1: one page holding one accepted `ps5_native_game`
title and one dropped `beta` title, ending with `nextOffset = 0`. -/
theorem fetchPSGames_keeps_filters_and_counts_witness :
    ([⟨"T1", "Game1", some "img"⟩] : List PsGame) =
      ((([⟨[⟨"T1", "Game1", "ps5_native_game", some "img"⟩,
            ⟨"T2", "Beta", "beta", none⟩], some 0⟩] :
          List PsnPlayedResponse).take 1).map fun page =>
        (page.titles.filter fun game =>
          game.category == "ps4_game" ||
          game.category == "ps5_native_game").map psNormalize).flatten ∧
    fetchPSGames (some "user")
      ⟨some "code", fun _ => some "auth",
       fun _ => some ⟨[⟨[⟨⟨"acct"⟩⟩]⟩]⟩,
       fun _ => [⟨[⟨"T1", "Game1", "ps5_native_game", some "img"⟩,
                   ⟨"T2", "Beta", "beta", none⟩], some 0⟩]⟩ =
      some (⟨200, psSuccessBody [⟨"T1", "Game1", some "img"⟩]⟩, 3 + 1) :=
  fetchPSGames_keeps_filters_and_counts (some "user")
    ⟨some "code", fun _ => some "auth",
     fun _ => some ⟨[⟨[⟨⟨"acct"⟩⟩]⟩]⟩,
     fun _ => [⟨[⟨"T1", "Game1", "ps5_native_game", some "img"⟩,
                 ⟨"T2", "Beta", "beta", none⟩], some 0⟩]⟩
    "code" "auth" "acct" ⟨[⟨[⟨⟨"acct"⟩⟩]⟩]⟩
    [⟨"T1", "Game1", some "img"⟩] 1
    rfl rfl rfl rfl rfl rfl

/-- C3: on a run of `fetchSteamGames` (the current, `part_000` version)
in which both upstream calls succeed and the vanity lookup reports
`success = 1`, every upstream game record is mapped to exactly
`{appid, name}` and the response is `{games: <mapped list>}` with
status 200. -/
theorem fetchSteamGames_maps_and_responds
    (vanityurl : Option String) (env : SteamEnv)
    (data : SteamVanity) (gamesData : SteamAPIResponse)
    (hv : strFalsy vanityurl = false)
    (h1 : env.vanityFetch = .ok data)
    (h2 : data.response.success = 1)
    (h3 : env.gamesFetch data.response.steamid = .ok gamesData) :
    fetchSteamGames vanityurl env =
      (⟨200, .obj [("games", .arr ((gamesData.response.games.map fun game =>
          ({ appid := game.appid, name := game.name } : Game)).map
            gameToJson))]⟩, 2) := by
  simp [fetchSteamGames, hv, h1, h2, h3]

/-- Witness for C3, at the spec's end-to-end example: vanity name
`exampleuser`, steamid `76561198000000000`, two owned games. -/
theorem fetchSteamGames_maps_and_responds_witness :
    fetchSteamGames (some "exampleuser")
      ⟨.ok ⟨⟨"76561198000000000", 1⟩⟩,
       fun _ => .ok ⟨⟨2, [⟨10, "Game A"⟩, ⟨20, "Game B"⟩]⟩⟩⟩ =
      (⟨200, .obj [("games", .arr ((([⟨10, "Game A"⟩, ⟨20, "Game B"⟩] :
          List Game).map fun game =>
          ({ appid := game.appid, name := game.name } : Game)).map
            gameToJson))]⟩, 2) :=
  fetchSteamGames_maps_and_responds (some "exampleuser")
    ⟨.ok ⟨⟨"76561198000000000", 1⟩⟩,
     fun _ => .ok ⟨⟨2, [⟨10, "Game A"⟩, ⟨20, "Game B"⟩]⟩⟩⟩
    ⟨⟨"76561198000000000", 1⟩⟩ ⟨⟨2, [⟨10, "Game A"⟩, ⟨20, "Game B"⟩]⟩⟩
    rfl rfl rfl rfl

/-- C6: when the vanity lookup succeeds at the HTTP level but reports a
`success` flag different from 1, `fetchSteamGames` responds 404
"Steam user not found" having made exactly one outbound call (so no
second call is attempted). -/
theorem fetchSteamGames_vanity_not_found
    (vanityurl : Option String) (env : SteamEnv) (data : SteamVanity)
    (hv : strFalsy vanityurl = false)
    (h1 : env.vanityFetch = .ok data)
    (h2 : data.response.success ≠ 1) :
    fetchSteamGames vanityurl env = (⟨404, .str "Steam user not found"⟩, 1) := by
  simp [fetchSteamGames, hv, h1, h2]

/-- Witness for C6: a vanity lookup returning `success = 0`. -/
theorem fetchSteamGames_vanity_not_found_witness :
    fetchSteamGames (some "nobody")
      ⟨.ok ⟨⟨"", 0⟩⟩, fun _ => .netError⟩ =
      (⟨404, .str "Steam user not found"⟩, 1) :=
  fetchSteamGames_vanity_not_found (some "nobody")
    ⟨.ok ⟨⟨"", 0⟩⟩, fun _ => .netError⟩ ⟨⟨"", 0⟩⟩
    rfl rfl (by decide)

/-- C4: with the required query parameter absent, `fetchSuggestions`,
`fetchSteamGames` and `fetchPSGames` respond 400 with zero outbound
calls; `fetchXboxGames` always performs its first outbound call,
whether or not `username` is present. -/
theorem missing_param_validation :
    (∀ upstream, fetchSuggestions none upstream =
      (⟨400, .str "Missing search query"⟩, 0)) ∧
    (∀ env, fetchSteamGames none env =
      (⟨400, .str "Missing Steam vanity URL"⟩, 0)) ∧
    (∀ env, fetchPSGames none env =
      some (⟨400, .str "Missing PSN username"⟩, 0)) ∧
    (∀ username env, 1 ≤ (fetchXboxGames username env).2) := by
  refine ⟨fun _ => rfl, fun _ => rfl, fun _ => rfl, fun username env => ?_⟩
  rw [fetchXboxGames]
  rcases hs : env.search username with _ | s | xuidData
  · exact Nat.le_refl 1
  · exact Nat.le_refl 1
  · rcases hp : xuidData.people.head? with _ | person
    · simp [hp]
    · by_cases htrim : person.xuid.trim = ""
      · simp [hp, htrim]
      · rcases ht : env.titleHistory person.xuid.trim with _ | s | d <;>
          simp [hp, htrim, ht]

/-- C5 counterexample: a success response of `fetchPSGames` can contain
a normalized game whose `appid` and `name` are empty and whose `logo`
is the empty string — the handler copies `titleId`, `name` and
`imageUrl` verbatim without any emptiness check, so the claimed
invariant fails when the upstream supplies empty fields. -/
theorem normalized_nonempty_cex :
    fetchPSGames (some "user")
      ⟨some "code", fun _ => some "auth",
       fun _ => some ⟨[⟨[⟨⟨"acct"⟩⟩]⟩]⟩,
       fun _ => [⟨[⟨"", "", "ps4_game", some ""⟩], some 0⟩]⟩ =
      some (⟨200, psSuccessBody [⟨"", "", some ""⟩]⟩, 3 + 1) ∧
    (⟨"", "", some ""⟩ : PsGame).appid = "" ∧
    (⟨"", "", some ""⟩ : PsGame).name = "" ∧
    (⟨"", "", some ""⟩ : PsGame).logo = some "" :=
  ⟨rfl, rfl, rfl, rfl⟩

/-- C5 amended: the normalizers copy upstream fields verbatim, so the
invariant holds exactly when the upstream supplies it: whenever every
upstream PlayStation title and Xbox title has a non-empty id and name
and an image that is absent or non-empty, every normalized game of a
completed PlayStation drain and of the Xbox title mapping has
non-empty `appid` and `name` and a `logo` that is absent or non-empty
(it can never be null, `logo` being an optional string). -/
theorem normalized_games_nonempty_of_upstream_nonempty
    (pages : List PsnPlayedResponse) (gs : List PsGame) (k : Nat)
    (titles : List XboxGame)
    (hps : ∀ page ∈ pages, ∀ t ∈ page.titles,
      t.titleId ≠ "" ∧ t.name ≠ "" ∧ t.imageUrl ≠ some "")
    (hxb : ∀ t ∈ titles,
      t.titleId ≠ "" ∧ t.name ≠ "" ∧ t.displayImage ≠ some "")
    (hdrain : psDrain pages = some (gs, k)) :
    (∀ g ∈ gs, g.appid ≠ "" ∧ g.name ≠ "" ∧ g.logo ≠ some "") ∧
    (∀ g ∈ titles.map xboxNormalize,
      g.appid ≠ "" ∧ g.name ≠ "" ∧ g.logo ≠ some "") := by
  constructor
  · intro g hg
    obtain ⟨hgs, -⟩ := psDrain_spec pages gs k hdrain
    subst hgs
    rw [List.mem_flatten] at hg
    obtain ⟨l, hl, hgl⟩ := hg
    rw [List.mem_map] at hl
    obtain ⟨page, hpage, rfl⟩ := hl
    rw [psPageKept, List.mem_map] at hgl
    obtain ⟨t, ht, rfl⟩ := hgl
    rw [List.mem_filter] at ht
    obtain ⟨hmem, -⟩ := ht
    exact hps page (List.mem_of_mem_take hpage) t hmem
  · intro g hg
    rw [List.mem_map] at hg
    obtain ⟨t, ht, rfl⟩ := hg
    exact hxb t ht

/-- Witness for C5's amended theorem: a one-page drain with one
well-formed title and one well-formed Xbox title. -/
theorem normalized_games_nonempty_of_upstream_nonempty_witness :
    (∀ g ∈ ([⟨"T1", "Game1", some "img"⟩] : List PsGame),
      g.appid ≠ "" ∧ g.name ≠ "" ∧ g.logo ≠ some "") ∧
    (∀ g ∈ ([⟨"X1", "Halo", none⟩] : List XboxGame).map xboxNormalize,
      g.appid ≠ "" ∧ g.name ≠ "" ∧ g.logo ≠ some "") :=
  normalized_games_nonempty_of_upstream_nonempty
    [⟨[⟨"T1", "Game1", "ps4_game", some "img"⟩], none⟩]
    [⟨"T1", "Game1", some "img"⟩] 1
    [⟨"X1", "Halo", none⟩]
    (by decide) (by decide) rfl

/-- C7: `fetchPSGames` resolves the account as the first result of the
first domain response of the account search (`firstAccountId`) and
proceeds with exactly that account's page sequence; when the search
yields no result, the indexing throw is caught and the handler answers
the generic 500 with no game list. -/
theorem fetchPSGames_first_result_policy
    (username : Option String) (env : PsnEnv)
    (accessCode authorization : String) (accountSearch : PsnSearchResponse)
    (hu : strFalsy username = false)
    (h1 : env.npssoExchange = some accessCode)
    (h2 : env.codeExchange accessCode = some authorization)
    (h3 : env.search (username.getD "") = some accountSearch) :
    (∀ d rs r rest, accountSearch.domainResponses = d :: rs →
      d.results = r :: rest →
      firstAccountId accountSearch = some r.socialMetadata.accountId) ∧
    (∀ accountId gs k, firstAccountId accountSearch = some accountId →
      psDrain (env.pages accountId) = some (gs, k) →
      fetchPSGames username env = some (⟨200, psSuccessBody gs⟩, 3 + k)) ∧
    (firstAccountId accountSearch = none →
      fetchPSGames username env = some (psFail, 3)) := by
  refine ⟨?_, ?_, ?_⟩
  · intro d rs r rest hd hr
    simp [firstAccountId, hd, hr]
  · intro accountId gs k h4 h5
    simp only [fetchPSGames, hu, h1, h2, h3, h4, h5]
    rfl
  · intro h4
    simp [fetchPSGames, hu, h1, h2, h3, h4]

/-- Witness for C7: a search with one result resolving to account
`acct`, whose page list is a single empty stop page. -/
theorem fetchPSGames_first_result_policy_witness :
    fetchPSGames (some "user")
      ⟨some "code", fun _ => some "auth",
       fun _ => some ⟨[⟨[⟨⟨"acct"⟩⟩]⟩]⟩,
       fun _ => [⟨[], some 0⟩]⟩ =
      some (⟨200, psSuccessBody []⟩, 3 + 1) :=
  (fetchPSGames_first_result_policy (some "user")
    ⟨some "code", fun _ => some "auth",
     fun _ => some ⟨[⟨[⟨⟨"acct"⟩⟩]⟩]⟩,
     fun _ => [⟨[], some 0⟩]⟩
    "code" "auth" ⟨[⟨[⟨⟨"acct"⟩⟩]⟩]⟩
    rfl rfl rfl rfl).2.1 "acct" [] 1 rfl rfl

/-- C8: when the gamertag search succeeds at the HTTP level but its
`people` list is empty, the `people[0].xuid` access throws, the
exception is caught, and `fetchXboxGames` answers the generic 500
(`xboxFail`) after its single outbound call — it does not crash. -/
theorem fetchXboxGames_empty_people
    (username : Option String) (env : XboxEnv)
    (xuidData : XboxUserSearchResponse)
    (h1 : env.search username = .ok xuidData)
    (h2 : xuidData.people = []) :
    fetchXboxGames username env = (xboxFail, 1) := by
  simp [fetchXboxGames, h1, h2]

/-- Witness for C8: a search returning an empty people list. -/
theorem fetchXboxGames_empty_people_witness :
    fetchXboxGames (some "ghost")
      ⟨fun _ => .ok ⟨[]⟩, fun _ => .netError⟩ = (xboxFail, 1) :=
  fetchXboxGames_empty_people (some "ghost")
    ⟨fun _ => .ok ⟨[]⟩, fun _ => .netError⟩ ⟨[]⟩ rfl rfl

/-- C9: when the outbound search call succeeds, `fetchSuggestions`
responds 200 with a body that is exactly the serialized `results` list
of the upstream envelope — the envelope's `count` (and any other
metadata) does not appear, the body being a bare array. -/
theorem fetchSuggestions_returns_results_only
    (query : Option String) (data : RawgApiResponse)
    (hq : strFalsy query = false) :
    fetchSuggestions query (.ok data) =
      (⟨200, .arr (data.results.map rawgGameToJson)⟩, 1) := by
  simp [fetchSuggestions, hq]

/-- Witness for C9: a one-result envelope with `count = 5`. -/
theorem fetchSuggestions_returns_results_only_witness :
    fetchSuggestions (some "zelda") (.ok ⟨5, [⟨1, "Zelda", some "z.png"⟩]⟩) =
      (⟨200, .arr (([⟨1, "Zelda", some "z.png"⟩] :
        List RawgGame).map rawgGameToJson)⟩, 1) :=
  fetchSuggestions_returns_results_only (some "zelda")
    ⟨5, [⟨1, "Zelda", some "z.png"⟩]⟩ rfl

/-- A concrete Steam environment on which both versions of
`fetchSteamGames` complete successfully: the vanity lookup succeeds
with `success = 1`, the owned-games call returns an empty library. -/
def steamCmpEnv : SteamEnv :=
  ⟨.ok ⟨⟨"76561198000000000", 1⟩⟩, fun _ => .ok ⟨⟨0, []⟩⟩⟩

/-- C10 counterexample: on an input on which both versions of
`fetchSteamGames` complete successfully (both respond 200), their
response bodies are not equal — the `part_000` version sends
`{games: [...]}` while the `index.ts` version passes the upstream
response object `{total_count, games}` through, so even the top-level
keys differ. -/
theorem steam_versions_not_equivalent_cex :
    (fetchSteamGames (some "exampleuser") steamCmpEnv).1.status = 200 ∧
    (fetchSteamGamesIndexTs (some "exampleuser") steamCmpEnv).1.status = 200 ∧
    (fetchSteamGames (some "exampleuser") steamCmpEnv).1.body ≠
      (fetchSteamGamesIndexTs (some "exampleuser") steamCmpEnv).1.body :=
  ⟨rfl, rfl, fun h => absurd (congrArg Json.topKeys h) (by decide)⟩

/-- C10 amended: wherever both versions complete successfully they
agree on the HTTP status (200), on the number of outbound calls, and
on the serialized games list — but not on the response body: the
current version wraps the mapped list as `{games: [...]}`, the
`index.ts` version returns the raw `response` object, which
additionally carries `total_count`. -/
theorem steam_versions_agree_on_status_and_games
    (vanityurl : Option String) (env : SteamEnv)
    (data : SteamVanity) (gamesData : SteamAPIResponse)
    (hv : strFalsy vanityurl = false)
    (h1 : env.vanityFetch = .ok data)
    (h2 : data.response.success = 1)
    (h3 : env.gamesFetch data.response.steamid = .ok gamesData) :
    (fetchSteamGames vanityurl env).1.status =
      (fetchSteamGamesIndexTs vanityurl env).1.status ∧
    (fetchSteamGames vanityurl env).2 =
      (fetchSteamGamesIndexTs vanityurl env).2 ∧
    (fetchSteamGames vanityurl env).1.body =
      .obj [("games", .arr (gamesData.response.games.map gameToJson))] ∧
    (fetchSteamGamesIndexTs vanityurl env).1.body =
      .obj [("total_count", .num gamesData.response.total_count),
            ("games", .arr (gamesData.response.games.map gameToJson))] := by
  refine ⟨?_, ?_, ?_, ?_⟩ <;>
    simp [fetchSteamGames, fetchSteamGamesIndexTs, hv, h1, h2, h3,
      steamInnerToJson, List.map_map]

/-- Witness for C10's amended theorem, on `steamCmpEnv`. -/
theorem steam_versions_agree_on_status_and_games_witness :
    (fetchSteamGames (some "exampleuser") steamCmpEnv).1.status =
      (fetchSteamGamesIndexTs (some "exampleuser") steamCmpEnv).1.status ∧
    (fetchSteamGames (some "exampleuser") steamCmpEnv).2 =
      (fetchSteamGamesIndexTs (some "exampleuser") steamCmpEnv).2 ∧
    (fetchSteamGames (some "exampleuser") steamCmpEnv).1.body =
      .obj [("games", .arr (([] : List Game).map gameToJson))] ∧
    (fetchSteamGamesIndexTs (some "exampleuser") steamCmpEnv).1.body =
      .obj [("total_count", .num 0),
            ("games", .arr (([] : List Game).map gameToJson))] :=
  steam_versions_agree_on_status_and_games (some "exampleuser") steamCmpEnv
    ⟨⟨"76561198000000000", 1⟩⟩ ⟨⟨0, []⟩⟩ rfl rfl rfl rfl

end GameTracker
